import Mathlib

/-!
The mock catalogue service `getNewest` (`src/app/services/newest.js`)

A shallow embedding of the filtering and pagination service.  The bundled
catalogue `db.data` (a JSON file that is loaded once) is a parameter `db` of
every definition.  The promise and its one second timer carry no data, so the
service is modelled by the value the promise resolves with.

JavaScript numbers that hold integers are modelled by `Int`.  Array lengths are
below `2 ^ 32`, and a product or sum of integers is rounded by the double
arithmetic only beyond `2 ^ 53`, where `slice` clamps it to the length anyway,
so exact integers give the same slices.
-/

namespace Newest

/-! ## Data model -/

/-- The `animeSeason` object of a catalogue entry. -/
structure AnimeSeason where
  year : Int
  season : String
deriving DecidableEq

/-- A catalogue entry, with the fields the service reads. -/
structure Anime where
  animeSeason : AnimeSeason
  tags : List String
  type : String
  status : String
deriving DecidableEq

/-- A field of the `params` bag: `undefined`, a single string, or an array of
strings. -/
inductive Facet where
  | undefined
  | str (s : String)
  | arr (xs : List String)
deriving DecidableEq

/-- The `params` argument of `getNewest`. -/
structure FilterParams where
  type : Facet
  status : Facet
deriving DecidableEq

/-- The object the promise of `getNewest` resolves with. -/
structure PageResult where
  data : List Anime
  total : Nat
deriving DecidableEq

/-! ## JavaScript and lodash primitives -/

/-- JavaScript truthiness of a facet value: `undefined` and the empty string are
falsy, every other string and every array (the empty one too) is truthy. -/
def Facet.truthy : Facet → Bool
  | .undefined => false
  | .str s => decide (s ≠ "")
  | .arr _ => true

/-- Substring test on character lists: `String.prototype.indexOf(pat) > -1`. -/
def isSubstr (pat : List Char) : List Char → Bool
  | [] => pat.isEmpty
  | c :: cs => pat.isPrefixOf (c :: cs) || isSubstr pat cs

/-- The call `_.includes(array, value)` on an array of strings: membership. -/
def includesArr (xs : List String) (value : String) : Bool :=
  xs.contains value

/-- The call `_.includes(collection, value)` of lodash on a facet value: on an
array it is membership, on a string it is a substring test, and `undefined` has
no values. -/
def includes (collection : Facet) (value : String) : Bool :=
  match collection with
  | .undefined => false
  | .str s => isSubstr value.data s.data
  | .arr xs => includesArr xs value

/-- Resolution of one argument of `Array.prototype.slice` against the length: a
negative index counts from the end, and the result is clamped to `[0, len]`. -/
def relIndex (len : Nat) (i : Int) : Nat :=
  if i < 0 then ((len : Int) + i).toNat else min i.toNat len

/-- The method `Array.prototype.slice(start, end)`. -/
def slice {α : Type} (xs : List α) (start stop : Int) : List α :=
  let k := relIndex xs.length start
  let final := relIndex xs.length stop
  (xs.drop k).take (final - k)

/-! ## The service -/

/-- The inner function `buildFilter` of `getNewest`, as the truth value that
`Array.prototype.filter` sees; the last branch returns the entry itself, an
object, which is truthy. -/
def buildFilter (params : FilterParams) (anime : Anime) : Bool :=
  if params.type.truthy && params.status.truthy then
    includes params.type anime.type || includes params.status anime.status
  else if params.type.truthy then
    includes params.type anime.type
  else if params.status.truthy then
    includes params.status anime.status
  else
    true

/-- The default value of the `params` argument. -/
def defaultParams : FilterParams :=
  { type := Facet.undefined, status := Facet.undefined }

/-- The service `getNewest(offset, size, params)` over the catalogue `db`;
`params = none` is a call that omits the argument. -/
def getNewest (db : List Anime) (offset size : Int) (params : Option FilterParams) :
    PageResult :=
  let params := params.getD defaultParams
  { data :=
      slice
        (((db.filter
              (fun anime => decide (anime.animeSeason.year = 2023)
                && decide (anime.animeSeason.season = "FALL"))).filter
            (fun anime => !includesArr anime.tags "hentai")).filter
          (fun anime => buildFilter params anime))
        ((offset - 1) * size) ((offset - 1) * size + size)
    total :=
      (((db.filter
            (fun anime => decide (anime.animeSeason.year = 2023)
              && decide (anime.animeSeason.season = "FALL"))).filter
          (fun anime => !includesArr anime.tags "hentai")).filter
        (fun anime => buildFilter params anime)).length }

/-! ## Notions of the specification -/

/-- The season pin: the entry belongs to fall 2023. -/
def inSeason (a : Anime) : Prop :=
  a.animeSeason.year = 2023 ∧ a.animeSeason.season = "FALL"

instance (a : Anime) : Decidable (inSeason a) := by
  unfold inSeason; infer_instance

/-- The entry carries the sensitivity tag. -/
def sensitive (a : Anime) : Prop := "hentai" ∈ a.tags

instance (a : Anime) : Decidable (sensitive a) := by
  unfold sensitive; infer_instance

/-- The season-pinned, non-sensitive part of the catalogue, in catalogue order. -/
def seasonCatalog (db : List Anime) : List Anime :=
  db.filter (fun a => decide (inSeason a ∧ ¬ sensitive a))

/-- The filtered subset of a request: the entries of the catalogue that pass the
season pin, the sensitivity exclusion and the type/status filter, in catalogue
order, before any slicing. -/
def filteredSubset (db : List Anime) (params : Option FilterParams) : List Anime :=
  db.filter (fun a =>
    decide (inSeason a ∧ ¬ sensitive a) && buildFilter (params.getD defaultParams) a)

/-- A facet constraint is satisfied by a value: the value is a member of the
array, or occurs in the single string. -/
def Facet.satisfiedBy (f : Facet) (v : String) : Prop :=
  match f with
  | .undefined => False
  | .str s => v.data <:+: s.data
  | .arr xs => v ∈ xs

/-! ## Fixtures -/

/-- A fall 2023 entry without tags. -/
def mkAnime (type status : String) : Anime :=
  { animeSeason := { year := 2023, season := "FALL" }, tags := [], type := type,
    status := status }

/-- Twenty-five matching entries, told apart by their tag. -/
def catalog25 : List Anime :=
  (List.range 25).map (fun i =>
    { animeSeason := { year := 2023, season := "FALL" },
      tags := [String.mk (List.replicate i 'a')], type := "TV", status := "ONGOING" })

/-- The three entries of the worked example on combined filters. -/
def threeEntries : List Anime :=
  [mkAnime "TV" "FINISHED", mkAnime "MOVIE" "ONGOING", mkAnime "OVA" "FINISHED"]

/-- The request `type = TV, status = FINISHED`, both given as arrays. -/
def tvOrFinished : FilterParams :=
  { type := Facet.arr ["TV"], status := Facet.arr ["FINISHED"] }

/-- A catalogue that mixes two matching entries with a sensitive entry and two
entries of other seasons. -/
def mixedCatalog : List Anime :=
  [ mkAnime "TV" "FINISHED",
    { animeSeason := { year := 2023, season := "FALL" }, tags := ["comedy", "hentai"],
      type := "OVA", status := "FINISHED" },
    { animeSeason := { year := 2022, season := "FALL" }, tags := [], type := "TV",
      status := "FINISHED" },
    { animeSeason := { year := 2023, season := "SUMMER" }, tags := [], type := "TV",
      status := "ONGOING" },
    mkAnime "MOVIE" "ONGOING" ]

/-- The number of pages of `size` entries that hold `total` entries, the
ceiling of `total / size`. -/
def pageCount (total size : Nat) : Nat := (total + size - 1) / size

/-! ## The promise, the facet enumerators and the data model enumerations -/

/-- A JavaScript exception thrown while the body runs. -/
inductive JsError where
  | typeError (message : String)
deriving DecidableEq

/-- The state of a promise after its executor and its timer callback have run:
settled one way or the other, or left pending because nothing settled it. -/
inductive Settled (α : Type) where
  | resolved (value : α)
  | rejected (reason : JsError)
  | pending
deriving DecidableEq

/-- The call by which a callback settles its promise. -/
inductive SettleCall (α : Type) where
  | resolve (value : α)
  | reject (reason : JsError)

/-- The promise `new Promise(executor)` whose executor schedules one timer
callback.  An exception of the executor rejects the promise; an exception of
the timer callback is thrown out of the timer task and nothing settles the
promise; otherwise the settle call of the callback decides. -/
def settleOf {α : Type} (executor : Except JsError (Except JsError (SettleCall α))) :
    Settled α :=
  match executor with
  | Except.error e => Settled.rejected e
  | Except.ok (Except.error _) => Settled.pending
  | Except.ok (Except.ok (SettleCall.resolve v)) => Settled.resolved v
  | Except.ok (Except.ok (SettleCall.reject e)) => Settled.rejected e

/-- An element of `db.data` as the parsed JSON can hold it: `null`, or an object
whose `animeSeason` property may be missing. -/
inductive RawEntry where
  | null
  | object (animeSeason : Option AnimeSeason) (tags : List String) (type status : String)
deriving DecidableEq

/-- The third argument of `getNewest` as a caller can pass it: `undefined` (or
omitted), `null`, or a params bag. -/
inductive ParamsArg where
  | undefined
  | null
  | bag (params : FilterParams)
deriving DecidableEq

/-- The value the binding `params` holds in the body: the default value
replaces `undefined` only, so `null` stays `null`. -/
def ParamsArg.bound : ParamsArg → Option FilterParams
  | .undefined => some defaultParams
  | .null => none
  | .bag params => some params

/-- The result object over raw entries. -/
structure RawPageResult where
  data : List RawEntry
  total : Nat
deriving DecidableEq

/-- The method `Array.prototype.filter` with a callback that can throw: the
callback runs on the elements in order, and its first exception ends the
call. -/
def filterE {α : Type} (callback : α → Except JsError Bool) :
    List α → Except JsError (List α)
  | [] => Except.ok []
  | a :: as =>
    match callback a with
    | Except.error e => Except.error e
    | Except.ok keep =>
      match filterE callback as with
      | Except.error e => Except.error e
      | Except.ok rest => Except.ok (if keep then a :: rest else rest)

/-- The callback of the first filter: reading `anime.animeSeason` throws on
`null`, and reading `.year` throws when `animeSeason` is missing. -/
def seasonCallback (anime : RawEntry) : Except JsError Bool :=
  match anime with
  | .null => Except.error (JsError.typeError "null has no property animeSeason")
  | .object none _ _ _ => Except.error (JsError.typeError "undefined has no property year")
  | .object (some animeSeason) _ _ _ =>
    Except.ok (decide (animeSeason.year = 2023) && decide (animeSeason.season = "FALL"))

/-- The callback of the second filter: reading `anime.tags` throws on `null`. -/
def tagsCallback (anime : RawEntry) : Except JsError Bool :=
  match anime with
  | .null => Except.error (JsError.typeError "null has no property tags")
  | .object _ tags _ _ => Except.ok (!includesArr tags "hentai")

/-- The callback of the third filter, the call `buildFilter(anime)`: reading
`params.type` throws when `params` is `null`; in a branch that tests a
constraint, reading `anime.type` or `anime.status` throws on `null`; the last
branch returns the entry itself, which is falsy when it is `null`. -/
def buildFilterCallback (params : Option FilterParams) (anime : RawEntry) :
    Except JsError Bool :=
  match params with
  | none => Except.error (JsError.typeError "null has no property type")
  | some params =>
    if params.type.truthy && params.status.truthy then
      match anime with
      | .null => Except.error (JsError.typeError "null has no property type")
      | .object _ _ type status =>
        Except.ok (includes params.type type || includes params.status status)
    else if params.type.truthy then
      match anime with
      | .null => Except.error (JsError.typeError "null has no property type")
      | .object _ _ type _ => Except.ok (includes params.type type)
    else if params.status.truthy then
      match anime with
      | .null => Except.error (JsError.typeError "null has no property status")
      | .object _ _ _ status => Except.ok (includes params.status status)
    else
      match anime with
      | .null => Except.ok false
      | .object _ _ _ _ => Except.ok true

/-- The timer callback of `getNewest` up to its call of `resolve`: the
evaluation of the result object, the chain of `data` first and the chain of
`total` after it, each filter with its callback that can throw. -/
def getNewestBody (db : List RawEntry) (offset size : Int) (params : ParamsArg) :
    Except JsError RawPageResult :=
  (filterE seasonCallback db).bind fun d₁ =>
  (filterE tagsCallback d₁).bind fun d₂ =>
  (filterE (buildFilterCallback params.bound) d₂).bind fun d₃ =>
  (filterE seasonCallback db).bind fun t₁ =>
  (filterE tagsCallback t₁).bind fun t₂ =>
  (filterE (buildFilterCallback params.bound) t₂).bind fun t₃ =>
  Except.ok
    { data := slice d₃ ((offset - 1) * size) ((offset - 1) * size + size)
      total := t₃.length }

/-- The promise that `getNewest` returns: the executor only schedules the timer
callback, which evaluates the result object and passes it to `resolve`; the
second argument `_reject` of the executor is never called. -/
def getNewestPromise (db : List RawEntry) (offset size : Int) (params : ParamsArg) :
    Settled RawPageResult :=
  settleOf (Except.ok ((getNewestBody db offset size params).map SettleCall.resolve))

/-- A well-formed catalogue entry as an element of `db.data`. -/
def Anime.toRaw (a : Anime) : RawEntry :=
  RawEntry.object (some a.animeSeason) a.tags a.type a.status

/-- A params argument of the type `FilterParams`, or its omission. -/
def ParamsArg.ofOption : Option FilterParams → ParamsArg
  | none => ParamsArg.undefined
  | some params => ParamsArg.bag params

/-- The service `getStatuses()`, as the array its promise resolves with.  The
catalogue is in the scope of the module, so it is a parameter here as well. -/
def getStatuses (_db : List Anime) : List String :=
  ["FINISHED", "ONGOING", "UPCOMING", "UNKNOWN"]

/-- The service `getTypes()`, as the array its promise resolves with. -/
def getTypes (_db : List Anime) : List String :=
  ["TV", "MOVIE", "OVA", "ONA", "SPECIAL", "UNKNOWN"]

/-- Modelled from the spec: the `Type` enumeration of the data model, which the
source does not declare. -/
inductive AnimeType where
  | TV | MOVIE | OVA | ONA | SPECIAL | UNKNOWN
deriving DecidableEq

/-- The string that stands for a value of the `Type` enumeration. -/
def AnimeType.name : AnimeType → String
  | .TV => "TV"
  | .MOVIE => "MOVIE"
  | .OVA => "OVA"
  | .ONA => "ONA"
  | .SPECIAL => "SPECIAL"
  | .UNKNOWN => "UNKNOWN"

/-- Modelled from the spec: the `Status` enumeration of the data model, which the
source does not declare. -/
inductive AnimeStatus where
  | FINISHED | ONGOING | UPCOMING | UNKNOWN
deriving DecidableEq

/-- The string that stands for a value of the `Status` enumeration. -/
def AnimeStatus.name : AnimeStatus → String
  | .FINISHED => "FINISHED"
  | .ONGOING => "ONGOING"
  | .UPCOMING => "UPCOMING"
  | .UNKNOWN => "UNKNOWN"

/-! ## The service over an explicit store of arrays -/

/-- A store of arrays: a reference to an array is its index in the store. -/
abbrev Store := List (List Anime)

/-- The array behind a reference. -/
def Store.read (σ : Store) (ref : Nat) : List Anime := σ.getD ref []

/-- Allocation of a new array: the store grows by one array, and the reference
to it is returned. -/
def Store.alloc (σ : Store) (xs : List Anime) : Nat × Store := (σ.length, σ ++ [xs])

/-- The method `Array.prototype.filter` on the store: it reads the receiver and
allocates the array of the kept entries. -/
def filterM (p : Anime → Bool) (ref : Nat) (σ : Store) : Nat × Store :=
  σ.alloc ((σ.read ref).filter p)

/-- The method `Array.prototype.slice` on the store: it reads the receiver and
allocates the array of the window. -/
def sliceM (start stop : Int) (ref : Nat) (σ : Store) : Nat × Store :=
  σ.alloc (slice (σ.read ref) start stop)

/-- The result object of `getNewest` on the store: a reference to the data array
and the total. -/
structure PageRef where
  data : Nat
  total : Nat
deriving DecidableEq

/-- The body of `getNewest` as a sequence of array operations on the store, in
evaluation order: the chain of the `data` property, then the chain of the
`total` property.  The catalogue `db.data` is the array behind `dbRef`. -/
def getNewestM (dbRef : Nat) (offset size : Int) (params : Option FilterParams)
    (σ₀ : Store) : PageRef × Store :=
  let params := params.getD defaultParams
  let d₁ := filterM (fun anime => decide (anime.animeSeason.year = 2023)
    && decide (anime.animeSeason.season = "FALL")) dbRef σ₀
  let d₂ := filterM (fun anime => !includesArr anime.tags "hentai") d₁.1 d₁.2
  let d₃ := filterM (fun anime => buildFilter params anime) d₂.1 d₂.2
  let d₄ := sliceM ((offset - 1) * size) ((offset - 1) * size + size) d₃.1 d₃.2
  let t₁ := filterM (fun anime => decide (anime.animeSeason.year = 2023)
    && decide (anime.animeSeason.season = "FALL")) dbRef d₄.2
  let t₂ := filterM (fun anime => !includesArr anime.tags "hentai") t₁.1 t₁.2
  let t₃ := filterM (fun anime => buildFilter params anime) t₂.1 t₂.2
  ({ data := d₄.1, total := (t₃.2.read t₃.1).length }, t₃.2)

/-! ## The breadcrumb of the header (`src/app/components/Header.jsx`) -/

/-- The props that `BreadcumbHeader` computes for one item: `isCurrentPage` of
the `BreadcrumbItem` and `href` of its `BreadcrumbLink`. -/
structure BreadcrumbItem where
  isCurrentPage : Bool
  href : String
deriving DecidableEq

/-- The method `Array.prototype.join(separator)` on an array of strings. -/
def join (xs : List String) (separator : String) : String :=
  separator.intercalate xs

/-- The items of `BreadcumbHeader`, one for each element of `paths`, in order. -/
def BreadcumbHeader (paths : List String) : List BreadcrumbItem :=
  paths.mapIdx (fun index path =>
    { isCurrentPage := decide ((index : Int) = (paths.length : Int) - 1)
      href := if path ≠ "" then join (slice paths 0 index) "/" else "/" })

/-! ## Lemmas on the primitives -/

theorem relIndex_of_nonneg (len : Nat) (i : Int) (h : 0 ≤ i) :
    relIndex len i = min i.toNat len := by
  unfold relIndex
  rw [if_neg (not_lt.mpr h)]

theorem relIndex_le (len : Nat) (i : Int) : relIndex len i ≤ len := by
  unfold relIndex
  split
  · omega
  · exact min_le_right _ _

theorem slice_sublist {α : Type} (xs : List α) (start stop : Int) :
    (slice xs start stop).Sublist xs := by
  unfold slice
  exact (List.take_sublist _ _).trans (List.drop_sublist _ _)

theorem slice_of_nonneg {α : Type} (xs : List α) (start stop : Int)
    (h₁ : 0 ≤ start) (h₂ : 0 ≤ stop) :
    slice xs start stop = (xs.drop start.toNat).take (stop.toNat - start.toNat) := by
  unfold slice
  simp only [relIndex_of_nonneg _ _ h₁, relIndex_of_nonneg _ _ h₂]
  by_cases hlen : xs.length ≤ start.toNat
  · rw [min_eq_right hlen, List.drop_of_length_le hlen, List.drop_of_length_le le_rfl]
    simp
  · have hlt : start.toNat < xs.length := not_le.mp hlen
    rw [min_eq_left hlt.le]
    by_cases he : stop.toNat ≤ xs.length
    · rw [min_eq_left he]
    · have hgt : xs.length < stop.toNat := not_le.mp he
      rw [min_eq_right hgt.le]
      have hl : (xs.drop start.toNat).length = xs.length - start.toNat := List.length_drop _ _
      rw [List.take_of_length_le (by omega), List.take_of_length_le (by omega)]

theorem chain_eq_filteredSubset (db : List Anime) (params : Option FilterParams) :
    ((db.filter
          (fun anime => decide (anime.animeSeason.year = 2023)
            && decide (anime.animeSeason.season = "FALL"))).filter
        (fun anime => !includesArr anime.tags "hentai")).filter
      (fun anime => buildFilter (params.getD defaultParams) anime)
    = filteredSubset db params := by
  unfold filteredSubset
  rw [List.filter_filter, List.filter_filter]
  apply List.filter_congr
  intro a _
  by_cases h : "hentai" ∈ a.tags <;> by_cases hy : a.animeSeason.year = 2023 <;>
    by_cases hs : a.animeSeason.season = "FALL" <;>
    simp [inSeason, sensitive, includesArr, h, hy, hs]

theorem getNewest_data (db : List Anime) (offset size : Int) (params : Option FilterParams) :
    (getNewest db offset size params).data
      = slice (filteredSubset db params) ((offset - 1) * size) ((offset - 1) * size + size) := by
  simp only [getNewest, chain_eq_filteredSubset]

theorem getNewest_total (db : List Anime) (offset size : Int) (params : Option FilterParams) :
    (getNewest db offset size params).total = (filteredSubset db params).length := by
  simp only [getNewest, chain_eq_filteredSubset]

theorem isSubstr_iff (pat : List Char) : ∀ txt : List Char, isSubstr pat txt = true ↔ pat <:+: txt
  | [] => by simp [isSubstr, List.isEmpty_iff]
  | c :: cs => by
    simp only [isSubstr, Bool.or_eq_true, List.isPrefixOf_iff_prefix, isSubstr_iff pat cs,
      List.infix_cons_iff]

theorem includes_iff (f : Facet) (v : String) : includes f v = true ↔ f.satisfiedBy v := by
  cases f with
  | undefined => simp [includes, Facet.satisfiedBy]
  | str s => simp [includes, Facet.satisfiedBy, isSubstr_iff]
  | arr xs => simp [includes, includesArr, Facet.satisfiedBy]

theorem filteredSubset_eq_filter (db : List Anime) (params : Option FilterParams) :
    filteredSubset db params
      = (seasonCatalog db).filter (buildFilter (params.getD defaultParams)) := by
  unfold filteredSubset seasonCatalog
  rw [List.filter_filter]
  apply List.filter_congr
  intro a _
  exact Bool.and_comm _ _

theorem mem_filteredSubset (db : List Anime) (params : Option FilterParams) (a : Anime) :
    a ∈ filteredSubset db params
      ↔ a ∈ seasonCatalog db ∧ buildFilter (params.getD defaultParams) a = true := by
  rw [filteredSubset_eq_filter, List.mem_filter]

/-! ## The page window and the total -/

theorem getNewest_data_of_pos (db : List Anime) (offset size : Int)
    (params : Option FilterParams) (ho : 1 ≤ offset) (hs : 1 ≤ size) :
    (getNewest db offset size params).data
      = ((filteredSubset db params).drop ((offset - 1) * size).toNat).take size.toNat := by
  have h₁ : 0 ≤ (offset - 1) * size := Int.mul_nonneg (by omega) (by omega)
  have h₂ : 0 ≤ (offset - 1) * size + size := by omega
  rw [getNewest_data, slice_of_nonneg _ _ _ h₁ h₂]
  congr 1
  omega

/-- C1: for all integers `offset ≥ 1` and `size ≥ 1`, the data of `getNewest` is
the window of the filtered subset that starts at index `(offset - 1) * size` and
holds at most `size` entries, that is `subset.drop ((offset - 1) * size)` followed by
`take size`. -/
theorem getNewest_data_window (db : List Anime) (offset size : Int)
    (params : Option FilterParams) (ho : 1 ≤ offset) (hs : 1 ≤ size) :
    (getNewest db offset size params).data
      = ((filteredSubset db params).drop ((offset - 1) * size).toNat).take size.toNat :=
  getNewest_data_of_pos db offset size params ho hs

/-- Witness of C1: a catalogue of 25 matching entries with `offset = 3` and
`size = 10` gives the entries 20 to 24 (five of them) and the total 25. -/
theorem getNewest_data_window_witness :
    (1 : Int) ≤ 3 ∧ (1 : Int) ≤ 10 ∧ filteredSubset catalog25 none = catalog25
      ∧ (getNewest catalog25 3 10 none).data = (catalog25.drop 20).take 5
      ∧ (getNewest catalog25 3 10 none).data.length = 5
      ∧ (getNewest catalog25 3 10 none).total = 25 :=
  ⟨by decide, by decide, by decide,
    (getNewest_data_window catalog25 3 10 none (by decide) (by decide)).trans (by decide),
    by decide, by decide⟩

/-- C2: the total of `getNewest` is the length of the filtered subset (season
pin, sensitivity exclusion and type/status filter applied, nothing sliced), and
two requests with the same params and any two page windows report the same
total. -/
theorem getNewest_total_independent (db : List Anime) (offset size offset' size' : Int)
    (params : Option FilterParams) :
    (getNewest db offset size params).total = (filteredSubset db params).length
      ∧ (getNewest db offset size params).total
          = (getNewest db offset' size' params).total := by
  simp only [getNewest_total, and_self]

/-! ## The type and status filter -/

theorem buildFilter_both (params : FilterParams) (a : Anime)
    (hT : params.type.truthy = true) (hS : params.status.truthy = true) :
    buildFilter params a = (includes params.type a.type || includes params.status a.status) := by
  simp [buildFilter, hT, hS]

theorem buildFilter_type_only (params : FilterParams) (a : Anime)
    (hT : params.type.truthy = true) (hS : params.status.truthy = false) :
    buildFilter params a = includes params.type a.type := by
  simp [buildFilter, hT, hS]

theorem buildFilter_status_only (params : FilterParams) (a : Anime)
    (hT : params.type.truthy = false) (hS : params.status.truthy = true) :
    buildFilter params a = includes params.status a.status := by
  simp [buildFilter, hT, hS]

theorem buildFilter_neither (params : FilterParams) (a : Anime)
    (hT : params.type.truthy = false) (hS : params.status.truthy = false) :
    buildFilter params a = true := by
  simp [buildFilter, hT, hS]

/-- C3: when the type constraint and the status constraint are both present
(truthy, as `buildFilter` tests them), the filter keeps an entry exactly when its
type satisfies the type constraint or its status satisfies the status
constraint; the subset of `getNewest` is the season-pinned, non-sensitive
catalogue filtered by that inclusive or, and the result is built from it. -/
theorem buildFilter_both_present_or (db : List Anime) (params : FilterParams)
    (hT : params.type.truthy = true) (hS : params.status.truthy = true) :
    (∀ a : Anime, buildFilter params a = true
        ↔ params.type.satisfiedBy a.type ∨ params.status.satisfiedBy a.status)
      ∧ (∀ a : Anime, a ∈ filteredSubset db (some params)
          ↔ a ∈ seasonCatalog db
            ∧ (params.type.satisfiedBy a.type ∨ params.status.satisfiedBy a.status))
      ∧ filteredSubset db (some params)
          = (seasonCatalog db).filter
              (fun a => includes params.type a.type || includes params.status a.status)
      ∧ ∀ offset size : Int,
          (getNewest db offset size (some params)).total
              = ((seasonCatalog db).filter
                  (fun a => includes params.type a.type
                    || includes params.status a.status)).length
            ∧ (getNewest db offset size (some params)).data
              = slice ((seasonCatalog db).filter
                  (fun a => includes params.type a.type
                    || includes params.status a.status))
                  ((offset - 1) * size) ((offset - 1) * size + size) := by
  have hb : ∀ a : Anime, buildFilter params a = true
      ↔ params.type.satisfiedBy a.type ∨ params.status.satisfiedBy a.status := by
    intro a
    rw [buildFilter_both params a hT hS, Bool.or_eq_true, includes_iff, includes_iff]
  have hf : filteredSubset db (some params)
      = (seasonCatalog db).filter
          (fun a => includes params.type a.type || includes params.status a.status) := by
    rw [filteredSubset_eq_filter]
    apply List.filter_congr
    intro a _
    exact buildFilter_both params a hT hS
  refine ⟨hb, ?_, hf, ?_⟩
  · intro a
    rw [mem_filteredSubset]
    exact and_congr_right (fun _ => hb a)
  · intro offset size
    rw [getNewest_total, getNewest_data, hf]
    exact ⟨rfl, rfl⟩

/-- Witness of C3: over the entries (TV, FINISHED), (MOVIE, ONGOING) and
(OVA, FINISHED), the request `type = TV, status = FINISHED` keeps exactly the
first and the third entry. -/
theorem buildFilter_both_present_or_witness :
    tvOrFinished.type.truthy = true ∧ tvOrFinished.status.truthy = true
      ∧ seasonCatalog threeEntries = threeEntries
      ∧ filteredSubset threeEntries (some tvOrFinished)
          = [mkAnime "TV" "FINISHED", mkAnime "OVA" "FINISHED"]
      ∧ (getNewest threeEntries 1 10 (some tvOrFinished)).data
          = [mkAnime "TV" "FINISHED", mkAnime "OVA" "FINISHED"]
      ∧ (getNewest threeEntries 1 10 (some tvOrFinished)).total = 2 :=
  ⟨by decide, by decide, by decide,
    (buildFilter_both_present_or threeEntries tvOrFinished (by decide) (by decide)).2.2.1.trans
      (by decide),
    by decide, by decide⟩

/-- C4: when exactly one of the two constraints is present (truthy) and the
other is absent (falsy), the filter keeps an entry exactly when the entry
satisfies the present constraint, whatever its other field holds: with only
the type present the subset is the season-pinned, non-sensitive catalogue
filtered by the type constraint, and with only the status present it is that
catalogue filtered by the status constraint.  For an array constraint,
satisfying it is membership of the array. -/
theorem buildFilter_single_constraint (db : List Anime) (params : FilterParams) :
    (params.type.truthy = true → params.status.truthy = false →
        (∀ a : Anime, buildFilter params a = true ↔ params.type.satisfiedBy a.type)
          ∧ (∀ a : Anime, a ∈ filteredSubset db (some params)
              ↔ a ∈ seasonCatalog db ∧ params.type.satisfiedBy a.type)
          ∧ filteredSubset db (some params)
              = (seasonCatalog db).filter (fun a => includes params.type a.type))
      ∧ (params.type.truthy = false → params.status.truthy = true →
        (∀ a : Anime, buildFilter params a = true ↔ params.status.satisfiedBy a.status)
          ∧ (∀ a : Anime, a ∈ filteredSubset db (some params)
              ↔ a ∈ seasonCatalog db ∧ params.status.satisfiedBy a.status)
          ∧ filteredSubset db (some params)
              = (seasonCatalog db).filter (fun a => includes params.status a.status))
      ∧ ∀ (xs : List String) (v : String), (Facet.arr xs).satisfiedBy v ↔ v ∈ xs := by
  refine ⟨?_, ?_, fun _ _ => Iff.rfl⟩
  · intro hT hS
    have hb : ∀ a : Anime, buildFilter params a = true ↔ params.type.satisfiedBy a.type := by
      intro a
      rw [buildFilter_type_only params a hT hS, includes_iff]
    refine ⟨hb, ?_, ?_⟩
    · intro a
      rw [mem_filteredSubset]
      exact and_congr_right (fun _ => hb a)
    · rw [filteredSubset_eq_filter]
      apply List.filter_congr
      intro a _
      exact buildFilter_type_only params a hT hS
  · intro hT hS
    have hb : ∀ a : Anime, buildFilter params a = true
        ↔ params.status.satisfiedBy a.status := by
      intro a
      rw [buildFilter_status_only params a hT hS, includes_iff]
    refine ⟨hb, ?_, ?_⟩
    · intro a
      rw [mem_filteredSubset]
      exact and_congr_right (fun _ => hb a)
    · rw [filteredSubset_eq_filter]
      apply List.filter_congr
      intro a _
      exact buildFilter_status_only params a hT hS

/-- Witness of C4: over the three entries of the worked example, `type = [TV]`
alone keeps the TV entry only, and `status = [FINISHED]` alone keeps the two
finished entries, whatever their type. -/
theorem buildFilter_single_constraint_witness :
    (Facet.arr ["TV"]).truthy = true ∧ (Facet.arr ["FINISHED"]).truthy = true
      ∧ Facet.undefined.truthy = false
      ∧ filteredSubset threeEntries
          (some { type := Facet.arr ["TV"], status := Facet.undefined })
        = [mkAnime "TV" "FINISHED"]
      ∧ filteredSubset threeEntries
          (some { type := Facet.undefined, status := Facet.arr ["FINISHED"] })
        = [mkAnime "TV" "FINISHED", mkAnime "OVA" "FINISHED"] :=
  ⟨by decide, by decide, by decide,
    ((buildFilter_single_constraint threeEntries
        { type := Facet.arr ["TV"], status := Facet.undefined }).1
      (by decide) (by decide)).2.2.trans (by decide),
    ((buildFilter_single_constraint threeEntries
        { type := Facet.undefined, status := Facet.arr ["FINISHED"] }).2.1
      (by decide) (by decide)).2.2.trans (by decide)⟩

/-- C5: for a request without filters (params omitted, or params whose type and
status are both absent) and every offset and size, every entry passes the
type/status filter, and the total is the number of catalogue entries of fall
2023 whose tags do not hold the tag `hentai`. -/
theorem getNewest_filter_free_total (db : List Anime) (offset size : Int)
    (params : Option FilterParams)
    (h : ∀ p : FilterParams, params = some p →
      p.type.truthy = false ∧ p.status.truthy = false) :
    (∀ a : Anime, buildFilter (params.getD defaultParams) a = true)
      ∧ (getNewest db offset size params).total
          = db.countP (fun a => decide (a.animeSeason.year = 2023
              ∧ a.animeSeason.season = "FALL" ∧ "hentai" ∉ a.tags)) := by
  have hb : ∀ a : Anime, buildFilter (params.getD defaultParams) a = true := by
    intro a
    cases params with
    | none => rfl
    | some p => exact buildFilter_neither p a (h p rfl).1 (h p rfl).2
  refine ⟨hb, ?_⟩
  rw [getNewest_total, List.countP_eq_length_filter]
  unfold filteredSubset
  congr 1
  apply List.filter_congr
  intro a _
  rw [hb a, Bool.and_true]
  simp only [inSeason, sensitive, and_assoc]

/-- Witness of C5: on the mixed catalogue the request without params and the
request with both fields undefined report the two matching entries. -/
theorem getNewest_filter_free_total_witness :
    (getNewest mixedCatalog 1 10 none).total = 2
      ∧ (getNewest mixedCatalog 4 3 (some defaultParams)).total = 2 :=
  ⟨(getNewest_filter_free_total mixedCatalog 1 10 none (by intro p hp; cases hp)).2.trans
      (by decide),
    (getNewest_filter_free_total mixedCatalog 4 3 (some defaultParams)
      (by intro p hp; cases hp; exact ⟨rfl, rfl⟩)).2.trans (by decide)⟩

/-! ## The two unconditional exclusions -/

/-- C6: for every catalogue, offset, size and params, no entry of the data
carries the tag `hentai`, the total counts only entries without that tag, and
the whole result is the one obtained from the catalogue with every tagged
entry removed beforehand: no params switch the exclusion off. -/
theorem getNewest_excludes_sensitive (db : List Anime) (offset size : Int)
    (params : Option FilterParams) :
    (∀ a ∈ (getNewest db offset size params).data, "hentai" ∉ a.tags)
      ∧ (getNewest db offset size params).total
          = db.countP (fun a => decide ("hentai" ∉ a.tags)
              && (decide (inSeason a) && buildFilter (params.getD defaultParams) a))
      ∧ getNewest db offset size params
          = getNewest (db.filter (fun a => decide ("hentai" ∉ a.tags))) offset size params := by
  have hsub : filteredSubset (db.filter (fun a => decide ("hentai" ∉ a.tags))) params
      = filteredSubset db params := by
    unfold filteredSubset
    rw [List.filter_filter]
    apply List.filter_congr
    intro a _
    by_cases hh : "hentai" ∈ a.tags <;> simp [sensitive, hh]
  refine ⟨?_, ?_, ?_⟩
  · intro a ha
    rw [getNewest_data] at ha
    have hmem : a ∈ filteredSubset db params := (slice_sublist _ _ _).subset ha
    unfold filteredSubset at hmem
    rw [List.mem_filter] at hmem
    have h2 := hmem.2
    simp only [Bool.and_eq_true, decide_eq_true_eq] at h2
    exact h2.1.2
  · rw [getNewest_total, List.countP_eq_length_filter]
    unfold filteredSubset
    congr 1
    apply List.filter_congr
    intro a _
    by_cases hh : "hentai" ∈ a.tags <;> by_cases hi : inSeason a <;> simp [sensitive, hh, hi]
  · have hd := getNewest_data db offset size params
    have ht := getNewest_total db offset size params
    have hd' := getNewest_data (db.filter (fun a => decide ("hentai" ∉ a.tags))) offset size
      params
    have ht' := getNewest_total (db.filter (fun a => decide ("hentai" ∉ a.tags))) offset size
      params
    rw [hsub] at hd' ht'
    cases hr : getNewest db offset size params
    cases hr' : getNewest (db.filter (fun a => decide ("hentai" ∉ a.tags))) offset size params
    rw [hr] at hd ht
    rw [hr'] at hd' ht'
    simp only at hd ht hd' ht'
    rw [hd, ht, hd', ht']

/-- C7: for every catalogue, offset, size and params, every entry of the data
has year 2023 and season `FALL`, the total counts only such entries, and the
whole result is the one obtained from the catalogue restricted to fall 2023
beforehand: entries of any other year and season pair never appear. -/
theorem getNewest_season_pinned (db : List Anime) (offset size : Int)
    (params : Option FilterParams) :
    (∀ a ∈ (getNewest db offset size params).data,
        a.animeSeason.year = 2023 ∧ a.animeSeason.season = "FALL")
      ∧ (getNewest db offset size params).total
          = db.countP (fun a => decide (a.animeSeason.year = 2023
                ∧ a.animeSeason.season = "FALL")
              && (decide ("hentai" ∉ a.tags) && buildFilter (params.getD defaultParams) a))
      ∧ getNewest db offset size params
          = getNewest (db.filter (fun a => decide (a.animeSeason.year = 2023
                ∧ a.animeSeason.season = "FALL"))) offset size params := by
  have hsub : filteredSubset (db.filter (fun a => decide (a.animeSeason.year = 2023
        ∧ a.animeSeason.season = "FALL"))) params = filteredSubset db params := by
    unfold filteredSubset
    rw [List.filter_filter]
    apply List.filter_congr
    intro a _
    by_cases hi : a.animeSeason.year = 2023 ∧ a.animeSeason.season = "FALL" <;>
      simp [inSeason, hi]
  refine ⟨?_, ?_, ?_⟩
  · intro a ha
    rw [getNewest_data] at ha
    have hmem : a ∈ filteredSubset db params := (slice_sublist _ _ _).subset ha
    unfold filteredSubset at hmem
    rw [List.mem_filter] at hmem
    have h2 := hmem.2
    simp only [Bool.and_eq_true, decide_eq_true_eq] at h2
    exact h2.1.1
  · rw [getNewest_total, List.countP_eq_length_filter]
    unfold filteredSubset
    congr 1
    apply List.filter_congr
    intro a _
    by_cases hh : "hentai" ∈ a.tags <;>
      by_cases hi : a.animeSeason.year = 2023 ∧ a.animeSeason.season = "FALL" <;>
      simp [sensitive, inSeason, hh, hi]
  · have hd := getNewest_data db offset size params
    have ht := getNewest_total db offset size params
    have hd' := getNewest_data (db.filter (fun a => decide (a.animeSeason.year = 2023
      ∧ a.animeSeason.season = "FALL"))) offset size params
    have ht' := getNewest_total (db.filter (fun a => decide (a.animeSeason.year = 2023
      ∧ a.animeSeason.season = "FALL"))) offset size params
    rw [hsub] at hd' ht'
    cases hr : getNewest db offset size params
    cases hr' : getNewest (db.filter (fun a => decide (a.animeSeason.year = 2023
      ∧ a.animeSeason.season = "FALL"))) offset size params
    rw [hr] at hd ht
    rw [hr'] at hd' ht'
    simp only at hd ht hd' ht'
    rw [hd, ht, hd', ht']

/-! ## Empty filter sets -/

theorem slice_nil {α : Type} (start stop : Int) : slice ([] : List α) start stop = [] := by
  simp [slice]

theorem getNewest_eq (db : List Anime) (offset size : Int) (params : Option FilterParams) :
    getNewest db offset size params
      = { data := slice (filteredSubset db params) ((offset - 1) * size)
            ((offset - 1) * size + size)
          total := (filteredSubset db params).length } := by
  simp only [getNewest, chain_eq_filteredSubset]

theorem filteredSubset_congr (db : List Anime) (p q : FilterParams)
    (h : ∀ a : Anime, buildFilter p a = buildFilter q a) :
    filteredSubset db (some p) = filteredSubset db (some q) := by
  unfold filteredSubset
  apply List.filter_congr
  intro a _
  simp only [Option.getD_some, h a]

theorem filteredSubset_eq_nil (db : List Anime) (p : FilterParams)
    (h : ∀ a : Anime, buildFilter p a = false) : filteredSubset db (some p) = [] := by
  unfold filteredSubset
  rw [List.filter_eq_nil_iff]
  intro a _
  simp only [Option.getD_some, h a, Bool.and_false]
  exact Bool.false_ne_true

/-- Counterexample to C8: on the three entries of the worked example the request
`{type: []}` returns no data and the total 0, while the request with the type
absent returns the three entries and the total 3. -/
theorem empty_type_array_differs_from_absent :
    getNewest threeEntries 1 10 (some { type := Facet.arr [], status := Facet.undefined })
        = { data := [], total := 0 }
      ∧ getNewest threeEntries 1 10
          (some { type := Facet.undefined, status := Facet.undefined })
        = { data := threeEntries, total := 3 }
      ∧ getNewest threeEntries 1 10 (some { type := Facet.arr [], status := Facet.undefined })
        ≠ getNewest threeEntries 1 10
            (some { type := Facet.undefined, status := Facet.undefined }) := by
  decide

/-- C8, amended: an empty array is a present constraint that no entry satisfies.
When the other field is absent (falsy), a request whose type, or whose status,
is the empty array returns no data and the total 0, for every catalogue, offset
and size; when the other field is a present constraint, the request returns the
same result as the request with the empty field absent. -/
theorem empty_array_matches_nothing (db : List Anime) (offset size : Int) (other : Facet) :
    (other.truthy = false →
        getNewest db offset size (some { type := Facet.arr [], status := other })
            = { data := [], total := 0 }
          ∧ getNewest db offset size (some { type := other, status := Facet.arr [] })
            = { data := [], total := 0 })
      ∧ (other.truthy = true →
        getNewest db offset size (some { type := Facet.arr [], status := other })
            = getNewest db offset size (some { type := Facet.undefined, status := other })
          ∧ getNewest db offset size (some { type := other, status := Facet.arr [] })
            = getNewest db offset size
                (some { type := other, status := Facet.undefined })) := by
  have hnil : ∀ v : String, includes (Facet.arr []) v = false := fun _ => rfl
  constructor
  · intro ho
    have h₁ : filteredSubset db (some { type := Facet.arr [], status := other }) = [] :=
      filteredSubset_eq_nil db _ (fun a =>
        (buildFilter_type_only { type := Facet.arr [], status := other } a rfl ho).trans
          (hnil _))
    have h₂ : filteredSubset db (some { type := other, status := Facet.arr [] }) = [] :=
      filteredSubset_eq_nil db _ (fun a =>
        (buildFilter_status_only { type := other, status := Facet.arr [] } a ho rfl).trans
          (hnil _))
    simp only [getNewest_eq, h₁, h₂, slice_nil, List.length_nil, and_self]
  · intro ho
    have h₁ : filteredSubset db (some { type := Facet.arr [], status := other })
        = filteredSubset db (some { type := Facet.undefined, status := other }) :=
      filteredSubset_congr db _ _ (fun a => by
        rw [buildFilter_both { type := Facet.arr [], status := other } a rfl ho,
          buildFilter_status_only { type := Facet.undefined, status := other } a rfl ho, hnil,
          Bool.false_or])
    have h₂ : filteredSubset db (some { type := other, status := Facet.arr [] })
        = filteredSubset db (some { type := other, status := Facet.undefined }) :=
      filteredSubset_congr db _ _ (fun a => by
        rw [buildFilter_both { type := other, status := Facet.arr [] } a ho rfl,
          buildFilter_type_only { type := other, status := Facet.undefined } a ho rfl, hnil,
          Bool.or_false])
    simp only [getNewest_eq, h₁, h₂, and_self]

/-- Witness of C8, amended: on the three entries, `{type: []}` alone returns
nothing, and `{type: [], status: [FINISHED]}` returns what `{status: [FINISHED]}`
returns, the two finished entries. -/
theorem empty_array_matches_nothing_witness :
    getNewest threeEntries 1 10 (some { type := Facet.arr [], status := Facet.undefined })
        = { data := [], total := 0 }
      ∧ getNewest threeEntries 1 10
          (some { type := Facet.arr [], status := Facet.arr ["FINISHED"] })
        = { data := [mkAnime "TV" "FINISHED", mkAnime "OVA" "FINISHED"], total := 2 } :=
  ⟨((empty_array_matches_nothing threeEntries 1 10 Facet.undefined).1 (by decide)).1,
    ((empty_array_matches_nothing threeEntries 1 10 (Facet.arr ["FINISHED"])).2
      (by decide)).1.trans (by decide)⟩

/-! ## Pagination -/

theorem flatten_windows {α : Type} (xs : List α) (s : Nat) :
    ∀ k : Nat, ((List.range k).map (fun i => (xs.drop (i * s)).take s)).flatten
      = xs.take (k * s)
  | 0 => by simp
  | k + 1 => by
    rw [List.range_succ, List.map_append, List.flatten_append, flatten_windows xs s k,
      Nat.succ_mul, List.take_add]
    simp

theorem le_pageCount_mul (n s : Nat) (hs : 1 ≤ s) : n ≤ pageCount n s * s := by
  unfold pageCount
  have h₁ := Nat.div_add_mod (n + s - 1) s
  have h₂ := Nat.mod_lt (n + s - 1) (show s > 0 by omega)
  rw [Nat.mul_comm]
  omega

theorem getNewest_page_data (db : List Anime) (params : Option FilterParams) (s i : Nat)
    (hs : 1 ≤ s) :
    (getNewest db ((i : Int) + 1) (s : Int) params).data
      = ((filteredSubset db params).drop (i * s)).take s := by
  rw [getNewest_data_of_pos db _ _ params (by omega) (by omega)]
  have h₁ : (((i : Int) + 1 - 1) * (s : Int)).toNat = i * s := by
    rw [Int.add_sub_cancel, ← Int.natCast_mul, Int.toNat_natCast]
  rw [h₁, Int.toNat_natCast]

/-- C9: for every catalogue, params and `size ≥ 1`, the data of the pages
`offset = 1, 2, ..., ceil(total / size)`, concatenated in that order, is the
filtered subset itself, in catalogue order: nothing is repeated and nothing is
left out. -/
theorem getNewest_pages_concat (db : List Anime) (size : Int) (params : Option FilterParams)
    (hs : 1 ≤ size) :
    ((List.range (pageCount (getNewest db 1 size params).total size.toNat)).map
        (fun i : Nat => (getNewest db ((i : Int) + 1) size params).data)).flatten
      = filteredSubset db params := by
  obtain ⟨s, rfl⟩ := Int.eq_ofNat_of_zero_le (show 0 ≤ size by omega)
  have hs' : 1 ≤ s := by omega
  rw [getNewest_total, Int.toNat_natCast]
  have hfun : (fun i : Nat => (getNewest db ((i : Int) + 1) (s : Int) params).data)
      = (fun i : Nat => ((filteredSubset db params).drop (i * s)).take s) := by
    funext i
    exact getNewest_page_data db params s i hs'
  rw [hfun, flatten_windows]
  exact List.take_of_length_le (le_pageCount_mul _ _ hs')

/-- Witness of C9: the 25 entries in pages of 10 make three pages, of 10, 10
and 5 entries, whose concatenation is the catalogue. -/
theorem getNewest_pages_concat_witness :
    (1 : Int) ≤ 10 ∧ pageCount (getNewest catalog25 1 10 none).total 10 = 3
      ∧ (getNewest catalog25 1 10 none).data ++ (getNewest catalog25 2 10 none).data
          ++ (getNewest catalog25 3 10 none).data = catalog25 :=
  ⟨by decide, by decide,
    Eq.trans (by decide) ((getNewest_pages_concat catalog25 10 none (by decide)).trans
      (by decide))⟩

/-- C10: for every request with `size ≥ 0`, so for every page request
(`offset ≥ 1`, `size ≥ 1`), and for every offset and params, the data holds at
most `size` entries and at most `total` entries. -/
theorem getNewest_data_length_le (db : List Anime) (offset size : Int)
    (params : Option FilterParams) (hs : 0 ≤ size) :
    ((getNewest db offset size params).data.length : Int) ≤ size
      ∧ (getNewest db offset size params).data.length
          ≤ (getNewest db offset size params).total := by
  constructor
  · rw [getNewest_data]
    unfold slice
    simp only [List.length_take, List.length_drop]
    generalize (filteredSubset db params).length = n
    generalize (offset - 1) * size = start
    unfold relIndex
    split_ifs <;> omega
  · rw [getNewest_data, getNewest_total]
    exact (slice_sublist _ _ _).length_le

/-- Witness of C10: the last page of the 25 entries holds 5 entries, at most
the size 10 and at most the total 25. -/
theorem getNewest_data_length_le_witness :
    (0 : Int) ≤ 10 ∧ (getNewest catalog25 3 10 none).data.length = 5
      ∧ ((getNewest catalog25 3 10 none).data.length : Int) ≤ 10
      ∧ (getNewest catalog25 3 10 none).data.length ≤ (getNewest catalog25 3 10 none).total :=
  ⟨by decide, by decide, (getNewest_data_length_le catalog25 3 10 none (by decide)).1,
    (getNewest_data_length_le catalog25 3 10 none (by decide)).2⟩

/-! ## Offsets beyond the last page, and requests outside the page model -/

/-- C11: for `size ≥ 1` and every offset beyond the last page
(`offset > ceil(total / size)`), the data is empty, and the total is the total
of every other request with the same params, in-range offsets included. -/
theorem getNewest_out_of_range (db : List Anime) (offset size : Int)
    (params : Option FilterParams) (hs : 1 ≤ size)
    (ho : (pageCount (getNewest db offset size params).total size.toNat : Int) < offset) :
    (getNewest db offset size params).data = []
      ∧ ∀ offset' : Int, (getNewest db offset size params).total
          = (getNewest db offset' size params).total := by
  obtain ⟨s, rfl⟩ := Int.eq_ofNat_of_zero_le (show 0 ≤ size by omega)
  have hs' : 1 ≤ s := by omega
  rw [getNewest_total, Int.toNat_natCast] at ho
  obtain ⟨o, rfl⟩ : ∃ o : Nat, offset = (o : Int) + 1 :=
    ⟨(offset - 1).toNat, by omega⟩
  refine ⟨?_, fun offset' => by rw [getNewest_total, getNewest_total]⟩
  rw [getNewest_page_data db params s o hs']
  have h₁ : pageCount (filteredSubset db params).length s ≤ o := by omega
  have h₂ := le_pageCount_mul (filteredSubset db params).length s hs'
  have h₃ := Nat.mul_le_mul_right s h₁
  rw [List.drop_of_length_le (by omega), List.take_nil]

/-- Witness of C11: the 25 entries in pages of 10 make three pages; page 4 is
empty and reports the total 25, as page 1 does. -/
theorem getNewest_out_of_range_witness :
    (1 : Int) ≤ 10 ∧ pageCount (getNewest catalog25 4 10 none).total 10 = 3
      ∧ (getNewest catalog25 4 10 none).data = []
      ∧ (getNewest catalog25 4 10 none).total = 25
      ∧ (getNewest catalog25 1 10 none).total = 25 :=
  ⟨by decide, by decide,
    (getNewest_out_of_range catalog25 4 10 none (by decide) (by decide)).1,
    by decide, by decide⟩

theorem filterE_map_ok {α β : Type} (f : α → β) (callback : β → Except JsError Bool)
    (keep : α → Bool) (h : ∀ a : α, callback (f a) = Except.ok (keep a)) :
    ∀ l : List α, filterE callback (l.map f) = Except.ok ((l.filter keep).map f)
  | [] => rfl
  | a :: l => by
    rw [List.map_cons, filterE, h a]
    simp only [filterE_map_ok f callback keep h l, List.filter_cons]
    cases keep a <;> rfl

theorem slice_map {α β : Type} (f : α → β) (xs : List α) (start stop : Int) :
    slice (xs.map f) start stop = (slice xs start stop).map f := by
  simp [slice, List.map_take, List.map_drop]

theorem buildFilterCallback_toRaw (params : FilterParams) (a : Anime) :
    buildFilterCallback (some params) a.toRaw = Except.ok (buildFilter params a) := by
  cases hT : params.type.truthy <;> cases hS : params.status.truthy <;>
    simp [buildFilterCallback, buildFilter, Anime.toRaw, hT, hS]

theorem bound_ofOption (params : Option FilterParams) :
    (ParamsArg.ofOption params).bound = some (params.getD defaultParams) := by
  cases params <;> rfl

theorem getNewestBody_toRaw (db : List Anime) (offset size : Int)
    (params : Option FilterParams) :
    getNewestBody (db.map Anime.toRaw) offset size (ParamsArg.ofOption params)
      = Except.ok
          { data := (getNewest db offset size params).data.map Anime.toRaw
            total := (getNewest db offset size params).total } := by
  have h₁ := filterE_map_ok Anime.toRaw seasonCallback
    (fun anime => decide (anime.animeSeason.year = 2023)
      && decide (anime.animeSeason.season = "FALL")) (fun _ => rfl)
  have h₂ := filterE_map_ok Anime.toRaw tagsCallback
    (fun anime => !includesArr anime.tags "hentai") (fun _ => rfl)
  have h₃ := filterE_map_ok Anime.toRaw
    (buildFilterCallback (some (params.getD defaultParams)))
    (fun anime => buildFilter (params.getD defaultParams) anime)
    (buildFilterCallback_toRaw (params.getD defaultParams))
  unfold getNewestBody
  simp only [bound_ofOption, h₁, h₂, h₃, Except.bind, slice_map, List.length_map]
  rfl

/-- The evaluation can fail: with `null` as params and one matching entry, and
with a `null` element in the catalogue, the timer callback throws and the
promise stays pending. -/
theorem getNewestPromise_can_stay_pending :
    getNewestPromise [(mkAnime "TV" "FINISHED").toRaw] 1 10 ParamsArg.null = Settled.pending
      ∧ getNewestPromise [RawEntry.null] 1 10 ParamsArg.undefined = Settled.pending
      ∧ getNewestPromise [RawEntry.object none [] "TV" "FINISHED"] 1 10 ParamsArg.undefined
          = Settled.pending := by
  decide

/-- C12: for every catalogue of well-formed entries, every pair of integers
`offset` and `size` (zero and negative ones included) and every params of the
type `FilterParams` (or none), no callback of the three filters throws, so the
promise of `getNewest` is resolved, neither rejected nor left pending, with the
result of the service: its data is the slice of the filtered subset between the
two computed indices, a possibly empty run of entries of the subset, and its
total is the length of the subset. -/
theorem getNewest_never_rejects (db : List Anime) (offset size : Int)
    (params : Option FilterParams) :
    getNewestPromise (db.map Anime.toRaw) offset size (ParamsArg.ofOption params)
        = Settled.resolved
            { data := (getNewest db offset size params).data.map Anime.toRaw
              total := (getNewest db offset size params).total }
      ∧ (getNewest db offset size params).data
          = slice (filteredSubset db params) ((offset - 1) * size)
              ((offset - 1) * size + size)
      ∧ (getNewest db offset size params).data.Sublist (filteredSubset db params)
      ∧ (getNewest db offset size params).total = (filteredSubset db params).length := by
  refine ⟨?_, getNewest_data db offset size params, ?_,
    getNewest_total db offset size params⟩
  · unfold getNewestPromise
    rw [getNewestBody_toRaw]
    rfl
  · rw [getNewest_data]
    exact slice_sublist _ _ _

/-! ## The facet enumerators -/

/-- C13: `getTypes` yields the sequence TV, MOVIE, OVA, ONA, SPECIAL, UNKNOWN and
`getStatuses` yields FINISHED, ONGOING, UPCOMING, UNKNOWN, whatever the
catalogue is, so the same on every call; each sequence holds every value of the
`Type`, respectively `Status`, enumeration exactly once and nothing else. -/
theorem facet_enumerators_fixed (db db' : List Anime) :
    getTypes db = ["TV", "MOVIE", "OVA", "ONA", "SPECIAL", "UNKNOWN"]
      ∧ getStatuses db = ["FINISHED", "ONGOING", "UPCOMING", "UNKNOWN"]
      ∧ getTypes db = getTypes db'
      ∧ getStatuses db = getStatuses db'
      ∧ (∀ t : AnimeType, (getTypes db).count t.name = 1)
      ∧ (∀ v ∈ getTypes db, ∃ t : AnimeType, t.name = v)
      ∧ (∀ s : AnimeStatus, (getStatuses db).count s.name = 1)
      ∧ (∀ v ∈ getStatuses db, ∃ s : AnimeStatus, s.name = v) := by
  refine ⟨rfl, rfl, rfl, rfl, ?_, ?_, ?_, ?_⟩
  · intro t
    show List.count t.name ["TV", "MOVIE", "OVA", "ONA", "SPECIAL", "UNKNOWN"] = 1
    cases t <;> decide
  · intro v hv
    simp only [getTypes, List.mem_cons, List.mem_singleton, List.not_mem_nil, or_false] at hv
    rcases hv with h | h | h | h | h | h
    · exact ⟨AnimeType.TV, h.symm⟩
    · exact ⟨AnimeType.MOVIE, h.symm⟩
    · exact ⟨AnimeType.OVA, h.symm⟩
    · exact ⟨AnimeType.ONA, h.symm⟩
    · exact ⟨AnimeType.SPECIAL, h.symm⟩
    · exact ⟨AnimeType.UNKNOWN, h.symm⟩
  · intro t
    show List.count t.name ["FINISHED", "ONGOING", "UPCOMING", "UNKNOWN"] = 1
    cases t <;> decide
  · intro v hv
    simp only [getStatuses, List.mem_cons, List.mem_singleton, List.not_mem_nil, or_false]
      at hv
    rcases hv with h | h | h | h
    · exact ⟨AnimeStatus.FINISHED, h.symm⟩
    · exact ⟨AnimeStatus.ONGOING, h.symm⟩
    · exact ⟨AnimeStatus.UPCOMING, h.symm⟩
    · exact ⟨AnimeStatus.UNKNOWN, h.symm⟩

/-! ## The catalogue as explicit state -/

theorem Store.read_alloc_self (σ : Store) (xs : List Anime) :
    (σ.alloc xs).2.read (σ.alloc xs).1 = xs := by
  simp [Store.alloc, Store.read]

theorem Store.read_alloc_old (σ : Store) (xs : List Anime) (ref : Nat) (h : ref < σ.length) :
    (σ.alloc xs).2.read ref = σ.read ref := by
  simp [Store.alloc, Store.read, List.getElem?_append_left h]

theorem Store.length_alloc (σ : Store) (xs : List Anime) :
    (σ.alloc xs).2.length = σ.length + 1 := by
  simp [Store.alloc]

theorem Store.read_append_old (σ τ : Store) (ref : Nat) (h : ref < σ.length) :
    Store.read (σ ++ τ) ref = σ.read ref := by
  simp [Store.read, List.getElem?_append_left h]

theorem Store.read_append_new (σ τ : Store) (k : Nat) :
    Store.read (σ ++ τ) (σ.length + k) = Store.read τ k := by
  simp [Store.read, List.getElem?_append_right]

theorem Store.alloc_snd (σ : Store) (xs : List Anime) : (σ.alloc xs).2 = σ ++ [xs] := rfl

theorem Store.alloc_fst (σ : Store) (xs : List Anime) : (σ.alloc xs).1 = σ.length := rfl

theorem getNewestM_eq (σ : Store) (dbRef : Nat) (offset size : Int)
    (params : Option FilterParams) (h : dbRef < σ.length) :
    getNewestM dbRef offset size params σ
      = ({ data := σ.length + 3,
           total := (getNewest (σ.read dbRef) offset size params).total },
         σ ++
          [ (σ.read dbRef).filter (fun anime => decide (anime.animeSeason.year = 2023)
              && decide (anime.animeSeason.season = "FALL")),
            ((σ.read dbRef).filter (fun anime => decide (anime.animeSeason.year = 2023)
              && decide (anime.animeSeason.season = "FALL"))).filter
                (fun anime => !includesArr anime.tags "hentai"),
            filteredSubset (σ.read dbRef) params,
            (getNewest (σ.read dbRef) offset size params).data,
            (σ.read dbRef).filter (fun anime => decide (anime.animeSeason.year = 2023)
              && decide (anime.animeSeason.season = "FALL")),
            ((σ.read dbRef).filter (fun anime => decide (anime.animeSeason.year = 2023)
              && decide (anime.animeSeason.season = "FALL"))).filter
                (fun anime => !includesArr anime.tags "hentai"),
            filteredSubset (σ.read dbRef) params ]) := by
  unfold getNewestM filterM sliceM
  simp only [Store.read_alloc_self]
  simp only [Store.alloc_snd, Store.alloc_fst, List.append_assoc, List.singleton_append,
    List.cons_append, List.nil_append, Store.read_append_old σ _ dbRef h,
    chain_eq_filteredSubset, getNewest_eq, List.length_append, List.length_cons,
    List.length_nil]

/-- C14: with the arrays held in an explicit store, a call of `getNewest` leaves
the catalogue array as it was (the same entries in the same order), and every
other array that existed before the call as well: the store only grows by new
arrays, the data array of the result is one of the new arrays, and the data and
the total are those of the pure reading of the service. -/
theorem getNewestM_preserves_catalogue (σ : Store) (dbRef : Nat) (offset size : Int)
    (params : Option FilterParams) (h : dbRef < σ.length) :
    (getNewestM dbRef offset size params σ).2.read dbRef = σ.read dbRef
      ∧ (∀ ref : Nat, ref < σ.length →
          (getNewestM dbRef offset size params σ).2.read ref = σ.read ref)
      ∧ σ <+: (getNewestM dbRef offset size params σ).2
      ∧ σ.length ≤ (getNewestM dbRef offset size params σ).1.data
      ∧ (getNewestM dbRef offset size params σ).2.read
            (getNewestM dbRef offset size params σ).1.data
          = (getNewest (σ.read dbRef) offset size params).data
      ∧ (getNewestM dbRef offset size params σ).1.total
          = (getNewest (σ.read dbRef) offset size params).total := by
  rw [getNewestM_eq σ dbRef offset size params h]
  refine ⟨Store.read_append_old σ _ dbRef h,
    fun ref href => Store.read_append_old σ _ ref href, List.prefix_append _ _,
    Nat.le_add_right _ _, ?_, rfl⟩
  rw [Store.read_append_new]
  rfl

/-- Witness of C14: in a store that holds the mixed catalogue at reference 0, a
call leaves the catalogue at reference 0 unchanged and puts the data at the
new reference 4. -/
theorem getNewestM_preserves_catalogue_witness :
    (0 : Nat) < [mixedCatalog].length
      ∧ (getNewestM 0 1 10 none [mixedCatalog]).2.read 0 = mixedCatalog
      ∧ (getNewestM 0 1 10 none [mixedCatalog]).1 = { data := 4, total := 2 }
      ∧ (getNewestM 0 1 10 none [mixedCatalog]).2.read 4
          = [mkAnime "TV" "FINISHED", mkAnime "MOVIE" "ONGOING"] :=
  ⟨by decide,
    (getNewestM_preserves_catalogue [mixedCatalog] 0 1 10 none (by decide)).1,
    by decide, by decide⟩

/-! ## A single value as a constraint -/

theorem isSubstr_type_name (t t' : AnimeType) :
    isSubstr t'.name.data t.name.data = decide (t'.name = t.name) := by
  cases t <;> cases t' <;> decide

theorem isSubstr_status_name (s s' : AnimeStatus) :
    isSubstr s'.name.data s.name.data = decide (s'.name = s.name) := by
  cases s <;> cases s' <;> decide

theorem truthy_type_name (t : AnimeType) : (Facet.str t.name).truthy = true := by
  cases t <;> decide

theorem truthy_status_name (s : AnimeStatus) : (Facet.str s.name).truthy = true := by
  cases s <;> decide

/-- C15: a constraint given as a single value of the enumeration, the other
field absent, keeps an entry whose type (status) is a value of the enumeration
exactly when the entry holds that very value; the substring test of
`_.includes` agrees with equality there because no value of an enumeration
occurs inside another. -/
theorem single_value_constraint (db : List Anime) (a : Anime) :
    (∀ t : AnimeType, (∃ t' : AnimeType, a.type = t'.name) →
        (buildFilter { type := Facet.str t.name, status := Facet.undefined } a = true
            ↔ a.type = t.name)
          ∧ (a ∈ filteredSubset db (some { type := Facet.str t.name, status := Facet.undefined })
            ↔ a ∈ seasonCatalog db ∧ a.type = t.name))
      ∧ (∀ s : AnimeStatus, (∃ s' : AnimeStatus, a.status = s'.name) →
        (buildFilter { type := Facet.undefined, status := Facet.str s.name } a = true
            ↔ a.status = s.name)
          ∧ (a ∈ filteredSubset db
                (some { type := Facet.undefined, status := Facet.str s.name })
            ↔ a ∈ seasonCatalog db ∧ a.status = s.name)) := by
  constructor
  · rintro t ⟨t', ht'⟩
    have hb : buildFilter { type := Facet.str t.name, status := Facet.undefined } a = true
        ↔ a.type = t.name := by
      rw [buildFilter_type_only { type := Facet.str t.name, status := Facet.undefined } a
        (truthy_type_name t) rfl]
      show isSubstr a.type.data t.name.data = true ↔ a.type = t.name
      rw [ht', isSubstr_type_name, decide_eq_true_eq]
    refine ⟨hb, ?_⟩
    rw [mem_filteredSubset]
    exact and_congr_right (fun _ => hb)
  · rintro s ⟨s', hs'⟩
    have hb : buildFilter { type := Facet.undefined, status := Facet.str s.name } a = true
        ↔ a.status = s.name := by
      rw [buildFilter_status_only { type := Facet.undefined, status := Facet.str s.name } a
        rfl (truthy_status_name s)]
      show isSubstr a.status.data s.name.data = true ↔ a.status = s.name
      rw [hs', isSubstr_status_name, decide_eq_true_eq]
    refine ⟨hb, ?_⟩
    rw [mem_filteredSubset]
    exact and_congr_right (fun _ => hb)

/-- Witness of C15: for the entry (OVA, FINISHED), the single value `OVA` keeps
it and the single value `TV` does not; the single value `FINISHED` keeps it. -/
theorem single_value_constraint_witness :
    (buildFilter { type := Facet.str "OVA", status := Facet.undefined }
        (mkAnime "OVA" "FINISHED") = true ↔ "OVA" = "OVA")
      ∧ (buildFilter { type := Facet.str "TV", status := Facet.undefined }
        (mkAnime "OVA" "FINISHED") = true ↔ "OVA" = "TV")
      ∧ (buildFilter { type := Facet.undefined, status := Facet.str "FINISHED" }
        (mkAnime "OVA" "FINISHED") = true ↔ "FINISHED" = "FINISHED") :=
  ⟨((single_value_constraint threeEntries (mkAnime "OVA" "FINISHED")).1 AnimeType.OVA
      ⟨AnimeType.OVA, rfl⟩).1,
    ((single_value_constraint threeEntries (mkAnime "OVA" "FINISHED")).1 AnimeType.TV
      ⟨AnimeType.OVA, rfl⟩).1,
    ((single_value_constraint threeEntries (mkAnime "OVA" "FINISHED")).2 AnimeStatus.FINISHED
      ⟨AnimeStatus.FINISHED, rfl⟩).1⟩

/-! ## Combined constraints as a union -/

theorem length_filter_or_add_and {α : Type} (p q : α → Bool) :
    ∀ l : List α, (l.filter (fun a => p a || q a)).length
        + (l.filter (fun a => p a && q a)).length
      = (l.filter p).length + (l.filter q).length
  | [] => rfl
  | a :: l => by
    have ih := length_filter_or_add_and p q l
    cases hp : p a <;> cases hq : q a <;> simp [List.filter_cons, hp, hq] <;> omega

theorem filter_sublist_of_imp {α : Type} (p q : α → Bool) (l : List α)
    (h : ∀ a, p a = true → q a = true) : (l.filter p).Sublist (l.filter q) := by
  have h₁ : l.filter p = (l.filter q).filter p := by
    rw [List.filter_filter]
    apply List.filter_congr
    intro a _
    cases hp : p a
    · rfl
    · rw [h a hp]; rfl
  rw [h₁]
  exact List.filter_sublist _

theorem filteredSubset_type_arr (db : List Anime) (T : List String) :
    filteredSubset db (some { type := Facet.arr T, status := Facet.undefined })
      = (seasonCatalog db).filter (fun a => includesArr T a.type) := by
  rw [filteredSubset_eq_filter]
  apply List.filter_congr
  intro a _
  exact buildFilter_type_only { type := Facet.arr T, status := Facet.undefined } a rfl rfl

theorem filteredSubset_status_arr (db : List Anime) (S : List String) :
    filteredSubset db (some { type := Facet.undefined, status := Facet.arr S })
      = (seasonCatalog db).filter (fun a => includesArr S a.status) := by
  rw [filteredSubset_eq_filter]
  apply List.filter_congr
  intro a _
  exact buildFilter_status_only { type := Facet.undefined, status := Facet.arr S } a rfl rfl

theorem filteredSubset_both_arr (db : List Anime) (T S : List String) :
    filteredSubset db (some { type := Facet.arr T, status := Facet.arr S })
      = (seasonCatalog db).filter (fun a => includesArr T a.type || includesArr S a.status) := by
  rw [filteredSubset_eq_filter]
  apply List.filter_congr
  intro a _
  exact buildFilter_both { type := Facet.arr T, status := Facet.arr S } a rfl rfl

/-- C16: for type and status constraints given as arrays `T` and `S` (non-empty
or not), the subset selected with both is the in-order union of the subset
selected with `T` alone and the subset selected with `S` alone: it is the
season-pinned, non-sensitive catalogue restricted to the entries of either
subset, and both subsets are sub-sequences of it.  Hence the total with both
is the sum of the two totals minus the number of season-pinned, non-sensitive
entries with type in `T` and status in `S`, and is at least either total. -/
theorem combined_constraints_union (db : List Anime) (T S : List String) (offset size : Int) :
    filteredSubset db (some { type := Facet.arr T, status := Facet.arr S })
        = (seasonCatalog db).filter (fun a => decide
            (a ∈ filteredSubset db (some { type := Facet.arr T, status := Facet.undefined })
              ∨ a ∈ filteredSubset db
                  (some { type := Facet.undefined, status := Facet.arr S })))
      ∧ (∀ a : Anime, a ∈ filteredSubset db (some { type := Facet.arr T, status := Facet.arr S })
          ↔ a ∈ filteredSubset db (some { type := Facet.arr T, status := Facet.undefined })
            ∨ a ∈ filteredSubset db (some { type := Facet.undefined, status := Facet.arr S }))
      ∧ (filteredSubset db (some { type := Facet.arr T, status := Facet.undefined })).Sublist
          (filteredSubset db (some { type := Facet.arr T, status := Facet.arr S }))
      ∧ (filteredSubset db (some { type := Facet.undefined, status := Facet.arr S })).Sublist
          (filteredSubset db (some { type := Facet.arr T, status := Facet.arr S }))
      ∧ (getNewest db offset size (some { type := Facet.arr T, status := Facet.arr S })).total
          = (getNewest db offset size
                (some { type := Facet.arr T, status := Facet.undefined })).total
            + (getNewest db offset size
                (some { type := Facet.undefined, status := Facet.arr S })).total
            - (seasonCatalog db).countP (fun a => decide (a.type ∈ T ∧ a.status ∈ S))
      ∧ (seasonCatalog db).countP (fun a => decide (a.type ∈ T ∧ a.status ∈ S))
          ≤ (getNewest db offset size
                (some { type := Facet.arr T, status := Facet.undefined })).total
      ∧ max (getNewest db offset size
                (some { type := Facet.arr T, status := Facet.undefined })).total
            (getNewest db offset size
                (some { type := Facet.undefined, status := Facet.arr S })).total
          ≤ (getNewest db offset size
                (some { type := Facet.arr T, status := Facet.arr S })).total := by
  have hT := filteredSubset_type_arr db T
  have hS := filteredSubset_status_arr db S
  have hTS := filteredSubset_both_arr db T S
  have hsubT : (filteredSubset db (some { type := Facet.arr T, status := Facet.undefined })).Sublist
      (filteredSubset db (some { type := Facet.arr T, status := Facet.arr S })) := by
    rw [hT, hTS]
    exact filter_sublist_of_imp _ _ _ (fun a ha => by simp [ha])
  have hsubS : (filteredSubset db (some { type := Facet.undefined, status := Facet.arr S })).Sublist
      (filteredSubset db (some { type := Facet.arr T, status := Facet.arr S })) := by
    rw [hS, hTS]
    exact filter_sublist_of_imp _ _ _ (fun a ha => by simp [ha])
  have hover : (seasonCatalog db).countP (fun a => decide (a.type ∈ T ∧ a.status ∈ S))
      = ((seasonCatalog db).filter
          (fun a => includesArr T a.type && includesArr S a.status)).length := by
    rw [List.countP_eq_length_filter]
    congr 1
    apply List.filter_congr
    intro a _
    simp [includesArr]
  have hsum := length_filter_or_add_and (fun a : Anime => includesArr T a.type)
    (fun a : Anime => includesArr S a.status) (seasonCatalog db)
  have hle : ((seasonCatalog db).filter
      (fun a => includesArr T a.type && includesArr S a.status)).length
      ≤ ((seasonCatalog db).filter (fun a => includesArr T a.type)).length :=
    (filter_sublist_of_imp _ _ _ (fun a ha => by
      simp only [Bool.and_eq_true] at ha
      exact ha.1)).length_le
  have hlT := hsubT.length_le
  have hlS := hsubS.length_le
  refine ⟨?_, ?_, hsubT, hsubS, ?_, ?_, ?_⟩
  · rw [hTS]
    apply List.filter_congr
    intro a ha
    rw [hT, hS]
    simp [List.mem_filter, ha]
  · intro a
    rw [hTS, hT, hS]
    simp only [List.mem_filter, Bool.or_eq_true]
    tauto
  · simp only [getNewest_total]
    rw [hover, hTS, hT, hS]
    omega
  · simp only [getNewest_total]
    rw [hover, hT]
    exact hle
  · simp only [getNewest_total]
    exact max_le hlT hlS

/-! ## The length of a page -/

/-- C17: for `offset ≥ 1` and `size ≥ 1` the data holds exactly
`min(size, max(total - (offset - 1) * size, 0))` entries: every page before the
last one (`offset < ceil(total / size)`) holds `size` entries, and when the
total is positive the last page (`offset = ceil(total / size)`) holds
`total - (ceil(total / size) - 1) * size` entries, between 1 and `size`. -/
theorem getNewest_data_length (db : List Anime) (offset size : Int)
    (params : Option FilterParams) (ho : 1 ≤ offset) (hs : 1 ≤ size) :
    ((getNewest db offset size params).data.length : Int)
        = min size (max (((getNewest db offset size params).total : Int)
            - (offset - 1) * size) 0)
      ∧ (offset < (pageCount (getNewest db offset size params).total size.toNat : Int) →
          ((getNewest db offset size params).data.length : Int) = size)
      ∧ (0 < (getNewest db offset size params).total →
          offset = (pageCount (getNewest db offset size params).total size.toNat : Int) →
          ((getNewest db offset size params).data.length : Int)
              = ((getNewest db offset size params).total : Int)
                - ((pageCount (getNewest db offset size params).total size.toNat : Int) - 1)
                  * size
            ∧ 1 ≤ (getNewest db offset size params).data.length
            ∧ ((getNewest db offset size params).data.length : Int) ≤ size) := by
  obtain ⟨s, rfl⟩ := Int.eq_ofNat_of_zero_le (show 0 ≤ size by omega)
  obtain ⟨o, rfl⟩ : ∃ o : Nat, offset = (o : Int) + 1 := ⟨(offset - 1).toNat, by omega⟩
  have hs' : 1 ≤ s := by omega
  have hlen : (getNewest db ((o : Int) + 1) (s : Int) params).data.length
      = min s ((filteredSubset db params).length - o * s) := by
    rw [getNewest_page_data db params s o hs', List.length_take, List.length_drop]
  simp only [getNewest_total, Int.toNat_natCast]
  rw [hlen]
  generalize (filteredSubset db params).length = n
  have h₁ := le_pageCount_mul n s hs'
  have h₂ : pageCount n s * s ≤ n + s - 1 := Nat.div_mul_le_self _ _
  have hcast : ((o : Int) + 1 - 1) * (s : Int) = ((o * s : Nat) : Int) := by
    push_cast; ring
  rw [hcast]
  refine ⟨by omega, ?_, ?_⟩
  · intro hlt
    have h₃ : o + 2 ≤ pageCount n s := by omega
    have h₄ := Nat.mul_le_mul_right s h₃
    rw [Nat.add_mul] at h₄
    omega
  · intro hn heq
    have h₃ : pageCount n s = o + 1 := by omega
    rw [h₃, Nat.add_mul, Nat.one_mul] at h₁ h₂
    have hcast' : (((o + 1 : Nat) : Int) - 1) * (s : Int) = ((o * s : Nat) : Int) := by
      push_cast; ring
    rw [h₃, hcast']
    omega

/-- Witness of C17: the 25 entries in pages of 10: page 2 holds 10 entries and
page 3, the last one, holds 25 - 2 * 10 = 5 entries. -/
theorem getNewest_data_length_witness :
    (1 : Int) ≤ 3 ∧ (1 : Int) ≤ 10
      ∧ ((getNewest catalog25 3 10 none).data.length : Int) = min 10 (max (25 - (3 - 1) * 10) 0)
      ∧ (getNewest catalog25 3 10 none).data.length = 5
      ∧ (getNewest catalog25 2 10 none).data.length = 10 :=
  ⟨by decide, by decide,
    (getNewest_data_length catalog25 3 10 none (by decide) (by decide)).1.trans (by decide),
    by decide, by decide⟩

/-! ## Negative offsets -/

/-- C18: for `offset ≤ -1` and `size ≥ 1` both arguments of `slice` are negative
and count from the end of the subset: with `n` the total, the data is the run
of the filtered subset from index `max(n + (offset - 1) * size, 0)` to index
`max(n + offset * size, 0)`, and there are a catalogue and a negative offset for
which this run is not empty. -/
theorem getNewest_negative_offset (db : List Anime) (offset size : Int)
    (params : Option FilterParams) (ho : offset ≤ -1) (hs : 1 ≤ size) :
    (getNewest db offset size params).data
        = ((filteredSubset db params).drop
            (((getNewest db offset size params).total : Int) + (offset - 1) * size).toNat).take
          ((((getNewest db offset size params).total : Int) + offset * size).toNat
            - (((getNewest db offset size params).total : Int) + (offset - 1) * size).toNat)
      ∧ ∃ (db' : List Anime) (offset' size' : Int) (params' : Option FilterParams),
          offset' ≤ -1 ∧ 1 ≤ size' ∧ (getNewest db' offset' size' params').data ≠ [] := by
  constructor
  · have h₁ : (offset - 1) * size < 0 := Int.mul_neg_of_neg_of_pos (by omega) (by omega)
    have h₂ : (offset - 1) * size + size = offset * size := by ring
    have h₃ : offset * size < 0 := Int.mul_neg_of_neg_of_pos (by omega) (by omega)
    rw [getNewest_data, getNewest_total, h₂]
    unfold slice relIndex
    simp only [if_pos h₁, if_pos h₃]
  · exact ⟨catalog25, -1, 10, none, by decide, by decide, by decide⟩

/-- Witness of C18: on the 25 entries, `offset = -1` and `size = 10` give the
ten entries at the indices 5 to 14. -/
theorem getNewest_negative_offset_witness :
    (-1 : Int) ≤ -1 ∧ (1 : Int) ≤ 10
      ∧ (getNewest catalog25 (-1) 10 none).data = (catalog25.drop 5).take 10
      ∧ (getNewest catalog25 (-1) 10 none).data.length = 10 :=
  ⟨by decide, by decide,
    (getNewest_negative_offset catalog25 (-1) 10 none (by decide) (by decide)).1.trans
      (by decide),
    by decide⟩

/-! ## Widening a facet set -/

theorem includesArr_iff (xs : List String) (v : String) : includesArr xs v = true ↔ v ∈ xs := by
  simp [includesArr]

theorem includes_arr_mono (T T' : List String) (v : String) (h : T ⊆ T')
    (hv : includes (Facet.arr T) v = true) : includes (Facet.arr T') v = true := by
  have hv' : includesArr T v = true := hv
  show includesArr T' v = true
  rw [includesArr_iff] at hv' ⊢
  exact h hv'

theorem buildFilter_mono_type (T T' : List String) (other : Facet) (a : Anime) (h : T ⊆ T')
    (ha : buildFilter { type := Facet.arr T, status := other } a = true) :
    buildFilter { type := Facet.arr T', status := other } a = true := by
  cases ho : other.truthy
  · rw [buildFilter_type_only { type := Facet.arr T, status := other } a rfl ho] at ha
    rw [buildFilter_type_only { type := Facet.arr T', status := other } a rfl ho]
    exact includes_arr_mono T T' _ h ha
  · rw [buildFilter_both { type := Facet.arr T, status := other } a rfl ho,
      Bool.or_eq_true] at ha
    rw [buildFilter_both { type := Facet.arr T', status := other } a rfl ho, Bool.or_eq_true]
    exact ha.imp (includes_arr_mono T T' _ h) id

theorem buildFilter_mono_status (S S' : List String) (other : Facet) (a : Anime) (h : S ⊆ S')
    (ha : buildFilter { type := other, status := Facet.arr S } a = true) :
    buildFilter { type := other, status := Facet.arr S' } a = true := by
  cases ho : other.truthy
  · rw [buildFilter_status_only { type := other, status := Facet.arr S } a ho rfl] at ha
    rw [buildFilter_status_only { type := other, status := Facet.arr S' } a ho rfl]
    exact includes_arr_mono S S' _ h ha
  · rw [buildFilter_both { type := other, status := Facet.arr S } a ho rfl,
      Bool.or_eq_true] at ha
    rw [buildFilter_both { type := other, status := Facet.arr S' } a ho rfl, Bool.or_eq_true]
    exact ha.imp id (includes_arr_mono S S' _ h)

/-- C19: widening a facet array never narrows the result: for arrays `T ⊆ T'`
and any fixed other field, the subset selected with type `T` is a sub-sequence,
in order, of the subset selected with type `T'`, so its total is at most the
other total; the same holds for the status field; and for every params the
total is at most the total of the request without filters. -/
theorem widening_never_narrows (db : List Anime) (T T' : List String) (other : Facet)
    (offset size : Int) (h : T ⊆ T') :
    (filteredSubset db (some { type := Facet.arr T, status := other })).Sublist
        (filteredSubset db (some { type := Facet.arr T', status := other }))
      ∧ (getNewest db offset size (some { type := Facet.arr T, status := other })).total
          ≤ (getNewest db offset size (some { type := Facet.arr T', status := other })).total
      ∧ (filteredSubset db (some { type := other, status := Facet.arr T })).Sublist
          (filteredSubset db (some { type := other, status := Facet.arr T' }))
      ∧ (getNewest db offset size (some { type := other, status := Facet.arr T })).total
          ≤ (getNewest db offset size (some { type := other, status := Facet.arr T' })).total
      ∧ ∀ params : Option FilterParams,
          (getNewest db offset size params).total ≤ (getNewest db offset size none).total := by
  have h₁ : (filteredSubset db (some { type := Facet.arr T, status := other })).Sublist
      (filteredSubset db (some { type := Facet.arr T', status := other })) := by
    rw [filteredSubset_eq_filter, filteredSubset_eq_filter]
    exact filter_sublist_of_imp _ _ _ (fun a ha => buildFilter_mono_type T T' other a h ha)
  have h₂ : (filteredSubset db (some { type := other, status := Facet.arr T })).Sublist
      (filteredSubset db (some { type := other, status := Facet.arr T' })) := by
    rw [filteredSubset_eq_filter, filteredSubset_eq_filter]
    exact filter_sublist_of_imp _ _ _ (fun a ha => buildFilter_mono_status T T' other a h ha)
  refine ⟨h₁, ?_, h₂, ?_, ?_⟩
  · rw [getNewest_total, getNewest_total]
    exact h₁.length_le
  · rw [getNewest_total, getNewest_total]
    exact h₂.length_le
  · intro params
    rw [getNewest_total, getNewest_total, filteredSubset_eq_filter, filteredSubset_eq_filter]
    exact (filter_sublist_of_imp _ _ _ (fun a _ => rfl)).length_le

/-- Witness of C19: on the three entries, type `[TV]` selects one entry and the
wider type `[TV, OVA]` selects two, the first one among them. -/
theorem widening_never_narrows_witness :
    ["TV"] ⊆ ["TV", "OVA"]
      ∧ (getNewest threeEntries 1 10
          (some { type := Facet.arr ["TV"], status := Facet.undefined })).total = 1
      ∧ (getNewest threeEntries 1 10
          (some { type := Facet.arr ["TV", "OVA"], status := Facet.undefined })).total = 2
      ∧ (getNewest threeEntries 1 10
          (some { type := Facet.arr ["TV"], status := Facet.undefined })).total
        ≤ (getNewest threeEntries 1 10
          (some { type := Facet.arr ["TV", "OVA"], status := Facet.undefined })).total :=
  ⟨by decide, by decide, by decide,
    (widening_never_narrows threeEntries ["TV"] ["TV", "OVA"] Facet.undefined 1 10
      (by decide)).2.1⟩

/-! ## The breadcrumb -/

theorem slice_zero_natCast {α : Type} (xs : List α) (i : Nat) :
    slice xs 0 (i : Int) = xs.take i := by
  rw [slice_of_nonneg xs 0 (i : Int) (le_refl 0) (Int.ofNat_nonneg i)]
  simp

theorem getElem?_BreadcumbHeader (paths : List String) (i : Nat) :
    (BreadcumbHeader paths)[i]?
      = (paths[i]?).map (fun path =>
          { isCurrentPage := decide ((i : Int) = (paths.length : Int) - 1)
            href := if path ≠ "" then join (slice paths 0 i) "/" else "/" }) := by
  unfold BreadcumbHeader
  rw [List.getElem?_mapIdx]

/-- C20: in the breadcrumb of the header, the item at index `i` of `paths` is
marked as the current page exactly when `i = paths.length - 1`, so that over a
non-empty list the marks are false for all items but the last; its link target
is `/` when the segment `paths[i]` is the empty string, and otherwise the
segments before it, `paths[0..i)`, joined with `/`, without `paths[i]`. -/
theorem breadcrumb_item (paths : List String) (i : Nat) (path : String)
    (h : paths[i]? = some path) :
    (BreadcumbHeader paths)[i]?
        = some { isCurrentPage := decide (i = paths.length - 1)
                 href := if path = "" then "/" else "/".intercalate (paths.take i) }
      ∧ (BreadcumbHeader paths).length = paths.length
      ∧ (BreadcumbHeader paths).map (fun item => item.isCurrentPage)
          = List.replicate (paths.length - 1) false ++ [true] := by
  have hi : i < paths.length := by
    rcases List.getElem?_eq_some_iff.mp h with ⟨hlt, _⟩
    exact hlt
  have hlen : (BreadcumbHeader paths).length = paths.length := by
    unfold BreadcumbHeader
    exact List.length_mapIdx
  refine ⟨?_, hlen, ?_⟩
  · rw [getElem?_BreadcumbHeader, h, Option.map_some', slice_zero_natCast]
    congr 2
    · apply decide_eq_decide.mpr
      omega
    · by_cases hp : path = "" <;> simp [hp, join]
  · apply List.ext_getElem?
    intro j
    rw [List.getElem?_map, getElem?_BreadcumbHeader]
    by_cases hj : j < paths.length
    · obtain ⟨pj, hpj⟩ : ∃ pj, paths[j]? = some pj := ⟨paths[j], List.getElem?_eq_getElem hj⟩
      rw [hpj]
      simp only [Option.map_some']
      by_cases hlast : j = paths.length - 1
      · rw [List.getElem?_append_right (by simp; omega)]
        simp only [List.length_replicate]
        rw [hlast, Nat.sub_self]
        simp
        omega
      · rw [List.getElem?_append_left (by simp; omega)]
        rw [List.getElem?_replicate]
        simp
        constructor <;> omega
    · have hnone : paths[j]? = none := List.getElem?_eq_none (by omega)
      rw [hnone]
      simp only [Option.map_none']
      symm
      apply List.getElem?_eq_none
      simp
      omega

/-- Witness of C20: for the segments of `/newest/x`, the last item is the
current page, the first links to `/`, and the item of `x` links to `/newest`,
the join of the segments before it. -/
theorem breadcrumb_item_witness :
    BreadcumbHeader ["", "newest", "x"]
        = [ { isCurrentPage := false, href := "/" },
            { isCurrentPage := false, href := "" },
            { isCurrentPage := true, href := "/newest" } ]
      ∧ (BreadcumbHeader ["", "newest", "x"])[2]?
        = some { isCurrentPage := true, href := "/newest" } :=
  ⟨by decide, (breadcrumb_item ["", "newest", "x"] 2 "x" rfl).1.trans (by decide)⟩

end Newest
